import Mathlib

/-!
Verification of the `intro-pytorch.ipynb` notebook (the single source file of
this repository).  The notebook is a linear script of code cells; we embed it
shallowly in two layers:

* a small statement language (`SimpleStmt` / `Stmt`) with an executable
  semantics (`execSimple`, `execStmt`, `execStmtList`) over a script state that
  records the default-tensor-type flag, the `use_cuda` variable and an event
  trace; failures (missing library, absent CUDA accelerator) are explicit
  `ExecResult.fail` outcomes;
* a numeric semantics of the training loop over `ℚ` (`TrainState`,
  `trainStep`, `trainLoop`), with the two-layer network forward pass, the
  `nn.MSELoss(size_average=False)` loss, analytic gradients for the backward
  pass and the manual `param.data -= learning_rate * param.grad.data` update.
-/

namespace IntroTorch

/-- Batch size `N` from the notebook (`N, dim_in, H, dim_out = 64, 1000, 100, 10`). -/
def N : ℕ := 64

/-- Input dimension `dim_in` from the notebook. -/
def dim_in : ℕ := 1000

/-- Hidden dimension `H` from the notebook. -/
def H : ℕ := 100

/-- Output dimension `dim_out` from the notebook. -/
def dim_out : ℕ := 10

/-- The learning rate assigned in the notebook: `learning_rate = 1e-4`. -/
def learning_rate : ℚ := 1/10000

/-- Layers that appear in the `nn.Sequential(...)` call of the notebook. -/
inductive Layer where
  | linear (inFeatures outFeatures : ℕ)
  | relu
deriving DecidableEq

/-- The argument list of the `nn.Sequential` factory call in the notebook:
`nn.Linear(dim_in, H), nn.ReLU(), nn.Linear(H, dim_out)`. -/
def modelLayers : List Layer := [Layer.linear dim_in H, Layer.relu, Layer.linear H dim_out]

/-- Python modules imported by the notebook. -/
inductive TorchModule where
  | torch
  | torchNN
  | autogradVariable
deriving DecidableEq

/-- Variables assigned by the notebook's cells. -/
inductive VarName where
  | a | b | c | d
  | use_cuda
  | floatT | longT | byteT | tensorT
  | x | y
  | model
  | loss_fn
  | learning_rate
  | y_pred
  | loss
deriving DecidableEq

/-- What a `print(...)` call of the notebook prints. -/
inductive PrintItem where
  | version
  | cudaAvail
  | var (v : VarName)
  | modelRepr
  | lossVal
deriving DecidableEq

/-- Observable events of a run of the script. -/
inductive Event where
  | imported (m : TorchModule)
  | printed (p : PrintItem)
  | cudaAllocated (v : VarName)
  | added (v : VarName)
  | availQueried (v : VarName)
  | aliased (v : VarName)
  | defaultSetCuda
  | defaultAllocated (v : VarName) (onCuda : Bool)
  | dimsSet
  | randnAllocated (v : VarName) (rows cols : ℕ) (requiresGrad : Bool) (onCuda : Bool)
  | modelBuilt (layers : List Layer)
  | movedModelToCuda
  | lossFnBuilt (sizeAverage : Bool)
  | lrSet (value : ℚ)
  | forwardPass
  | lossComputed
  | gradsZeroed
  | backwardPass
  | paramsUpdated
deriving DecidableEq

/-- Simple (non-compound) statements of the notebook's code cells. -/
inductive SimpleStmt where
  | importMod (m : TorchModule)
  | printOut (p : PrintItem)
  | assignCudaZeros (v : VarName)
  | assignRandnCuda (v : VarName)
  | assignAdd (v l r : VarName)
  | assignIsAvailable (v : VarName)
  | assignAlias (v : VarName)
  | setDefaultTensorTypeCuda
  | assignDefaultFloat (v : VarName)
  | assignDims
  | assignRandnDefault (v : VarName) (rows cols : ℕ) (requiresGrad : Bool)
  | assignSequentialModel (v : VarName) (layers : List Layer)
  | modelToCuda
  | assignMSELoss (v : VarName) (sizeAverage : Bool)
  | assignConstLR (v : VarName) (value : ℚ)
  | assignForward (v : VarName)
  | assignLossApply (v : VarName)
  | zeroGradCall
  | backwardCall
  | forParamsUpdate
deriving DecidableEq

/-- Statements: simple statements plus the compound forms the script could use
(`if use_cuda:` guard, `for t in range(n):` loop, and `try/except`, which the
language offers but the notebook never writes). -/
inductive Stmt where
  | simple (s : SimpleStmt)
  | ifCuda (body : List SimpleStmt)
  | forRange (n : ℕ) (body : List SimpleStmt)
  | tryExcept (body handler : List SimpleStmt)
deriving DecidableEq

/-- Environment of a run: whether the torch library is installed and whether a
CUDA accelerator is available (`torch.cuda.is_available()`). -/
structure ScriptEnv where
  torchInstalled : Bool
  cudaAvailable : Bool
deriving DecidableEq

/-- Mutable state of a run: the Python variable `use_cuda`, whether the default
tensor type has been set to `torch.cuda.FloatTensor`, and the event trace. -/
structure ScriptState where
  use_cuda : Bool
  defaultCudaFloat : Bool
  events : List Event
deriving DecidableEq

/-- Errors raised by the external library. -/
inductive PyError where
  | moduleNotFound (m : TorchModule)
  | cudaUnavailable (site : VarName)
deriving DecidableEq

/-- Outcome of executing a piece of the script: success, or an error together
with the state reached when the error was raised. -/
inductive ExecResult where
  | ok (s : ScriptState)
  | fail (e : PyError) (s : ScriptState)
deriving DecidableEq

/-- The events of an outcome (trace up to the failure point when failing). -/
def ExecResult.trace : ExecResult → List Event
  | .ok s => s.events
  | .fail _ s => s.events

/-- Semantics of a simple statement.  CUDA allocations
(`torch.cuda.FloatTensor(2).zero_()`, `torch.randn(2).cuda()`, `model.cuda()`)
raise when no accelerator is available; `import` raises when the library is
missing; everything else succeeds and appends its event. -/
def execSimple (env : ScriptEnv) (s : ScriptState) : SimpleStmt → ExecResult
  | .importMod m =>
      if env.torchInstalled then .ok {s with events := s.events ++ [.imported m]}
      else .fail (.moduleNotFound m) s
  | .printOut p => .ok {s with events := s.events ++ [.printed p]}
  | .assignCudaZeros v =>
      if env.cudaAvailable then .ok {s with events := s.events ++ [.cudaAllocated v]}
      else .fail (.cudaUnavailable v) s
  | .assignRandnCuda v =>
      if env.cudaAvailable then .ok {s with events := s.events ++ [.cudaAllocated v]}
      else .fail (.cudaUnavailable v) s
  | .assignAdd v _ _ => .ok {s with events := s.events ++ [.added v]}
  | .assignIsAvailable v =>
      .ok {s with use_cuda := env.cudaAvailable, events := s.events ++ [.availQueried v]}
  | .assignAlias v => .ok {s with events := s.events ++ [.aliased v]}
  | .setDefaultTensorTypeCuda =>
      .ok {s with defaultCudaFloat := true, events := s.events ++ [.defaultSetCuda]}
  | .assignDefaultFloat v =>
      .ok {s with events := s.events ++ [.defaultAllocated v s.defaultCudaFloat]}
  | .assignDims => .ok {s with events := s.events ++ [.dimsSet]}
  | .assignRandnDefault v rows cols rg =>
      .ok {s with events := s.events ++ [.randnAllocated v rows cols rg s.defaultCudaFloat]}
  | .assignSequentialModel _ layers =>
      .ok {s with events := s.events ++ [.modelBuilt layers]}
  | .modelToCuda =>
      if env.cudaAvailable then .ok {s with events := s.events ++ [.movedModelToCuda]}
      else .fail (.cudaUnavailable .model) s
  | .assignMSELoss _ sizeAverage =>
      .ok {s with events := s.events ++ [.lossFnBuilt sizeAverage]}
  | .assignConstLR _ value => .ok {s with events := s.events ++ [.lrSet value]}
  | .assignForward _ => .ok {s with events := s.events ++ [.forwardPass]}
  | .assignLossApply _ => .ok {s with events := s.events ++ [.lossComputed]}
  | .zeroGradCall => .ok {s with events := s.events ++ [.gradsZeroed]}
  | .backwardCall => .ok {s with events := s.events ++ [.backwardPass]}
  | .forParamsUpdate => .ok {s with events := s.events ++ [.paramsUpdated]}

/-- Run a list of simple statements in order; an error stops the run. -/
def execSimpleList (env : ScriptEnv) (s : ScriptState) : List SimpleStmt → ExecResult
  | [] => .ok s
  | c :: rest =>
      match execSimple env s c with
      | .ok s2 => execSimpleList env s2 rest
      | .fail e s2 => .fail e s2

/-- Run a loop body `n` times. -/
def execLoopN (env : ScriptEnv) : ℕ → List SimpleStmt → ScriptState → ExecResult
  | 0, _, s => .ok s
  | n + 1, body, s =>
      match execSimpleList env s body with
      | .ok s2 => execLoopN env n body s2
      | .fail e s2 => .fail e s2

/-- Semantics of a statement.  `ifCuda` tests the Python variable `use_cuda`;
`tryExcept` catches a failure of its body and runs the handler. -/
def execStmt (env : ScriptEnv) (s : ScriptState) : Stmt → ExecResult
  | .simple c => execSimple env s c
  | .ifCuda body => if s.use_cuda then execSimpleList env s body else .ok s
  | .forRange n body => execLoopN env n body s
  | .tryExcept body handler =>
      match execSimpleList env s body with
      | .ok s2 => .ok s2
      | .fail _ s2 => execSimpleList env s2 handler

/-- Run a list of statements in order; an error stops the run. -/
def execStmtList (env : ScriptEnv) (s : ScriptState) : List Stmt → ExecResult
  | [] => .ok s
  | c :: rest =>
      match execStmt env s c with
      | .ok s2 => execStmtList env s2 rest
      | .fail e s2 => .fail e s2

/-- Body of the training loop `for t in range(500):`, statement by statement:
`y_pred = model(x)`; `loss = loss_fn(y_pred, y)`; `print(...)`;
`model.zero_grad()`; `loss.backward()`; the parameter-update loop
`for param in model.parameters(): param.data -= learning_rate * param.grad.data`. -/
def trainLoopBody : List SimpleStmt :=
  [ .assignForward .y_pred,
    .assignLossApply .loss,
    .printOut .lossVal,
    .zeroGradCall,
    .backwardCall,
    .forParamsUpdate ]

/-- Cell `import torch`. -/
def cell1 : List Stmt := [.simple (.importMod .torch)]

/-- Cell `print(torch.__version__)`. -/
def cell2 : List Stmt := [.simple (.printOut .version)]

/-- Cell printing `torch.cuda.is_available()`. -/
def cell3 : List Stmt := [.simple (.printOut .cudaAvail)]

/-- Cell allocating `a = torch.cuda.FloatTensor(2).zero_()`,
`b = torch.randn(2).cuda()`, `c = a + b`, with prints. -/
def cell4 : List Stmt :=
  [ .simple (.assignCudaZeros .a), .simple (.printOut (.var .a)),
    .simple (.assignRandnCuda .b), .simple (.printOut (.var .b)),
    .simple (.assignAdd .c .a .b), .simple (.printOut (.var .c)) ]

/-- Cell assigning `use_cuda`, the tensor-type aliases, the guarded
`torch.set_default_tensor_type('torch.cuda.FloatTensor')`, and `d`. -/
def cell5 : List Stmt :=
  [ .simple (.assignIsAvailable .use_cuda),
    .simple (.assignAlias .floatT), .simple (.assignAlias .longT),
    .simple (.assignAlias .byteT), .simple (.assignAlias .tensorT),
    .ifCuda [.setDefaultTensorTypeCuda],
    .simple (.assignDefaultFloat .d), .simple (.printOut (.var .d)) ]

/-- Cell `import torch.nn as nn; from torch.autograd import Variable`. -/
def cell6 : List Stmt := [.simple (.importMod .torchNN), .simple (.importMod .autogradVariable)]

/-- Cell setting the dimensions and allocating `x` and `y`
(`y` with `requires_grad=False`). -/
def cell7 : List Stmt :=
  [ .simple .assignDims,
    .simple (.assignRandnDefault .x N dim_in false),
    .simple (.assignRandnDefault .y N dim_out false),
    .simple (.printOut (.var .x)) ]

/-- Cell building `model = nn.Sequential(nn.Linear(dim_in, H), nn.ReLU(),
nn.Linear(H, dim_out))`, the guarded `model.cuda()`, and `print(model)`. -/
def cell8 : List Stmt :=
  [ .simple (.assignSequentialModel .model modelLayers),
    .ifCuda [.modelToCuda],
    .simple (.printOut .modelRepr) ]

/-- Cell `loss_fn = nn.MSELoss(size_average=False)`. -/
def cell9 : List Stmt := [.simple (.assignMSELoss .loss_fn false)]

/-- All cells before the training loop, plus the `learning_rate = 1e-4`
assignment that opens the final cell. -/
def setupCells : List Stmt :=
  cell1 ++ cell2 ++ cell3 ++ cell4 ++ cell5 ++ cell6 ++ cell7 ++ cell8 ++ cell9 ++
    [.simple (.assignConstLR .learning_rate learning_rate)]

/-- The whole notebook, top to bottom: the setup cells followed by the
training loop `for t in range(500):`. -/
def scriptCells : List Stmt := setupCells ++ [.forRange 500 trainLoopBody]

/-- The state before the first cell runs. -/
def initState : ScriptState := ⟨false, false, []⟩

/-- Run the whole script in an environment. -/
def runScript (env : ScriptEnv) : ExecResult := execStmtList env initState scriptCells

/-- Whether a statement is a `try/except`. -/
def stmtIsTry : Stmt → Bool
  | .tryExcept _ _ => true
  | _ => false

/-- Whether a script contains any `try/except` statement. -/
def containsTry (l : List Stmt) : Bool := l.any stmtIsTry

/-- Number of `nn.Sequential(...)` construction sites in a simple statement. -/
def simpleSeqCount : SimpleStmt → ℕ
  | .assignSequentialModel _ _ => 1
  | _ => 0

/-- Number of `nn.Sequential(...)` construction sites in a statement,
including inside compound bodies. -/
def stmtSeqCount : Stmt → ℕ
  | .simple c => simpleSeqCount c
  | .ifCuda body => (body.map simpleSeqCount).sum
  | .forRange _ body => (body.map simpleSeqCount).sum
  | .tryExcept body handler =>
      (body.map simpleSeqCount).sum + (handler.map simpleSeqCount).sum

/-- Number of `nn.Sequential(...)` construction sites in the whole script. -/
def scriptSeqCount : ℕ := (scriptCells.map stmtSeqCount).sum

/-- The learnable parameters of the two-layer network: weight and bias of
`nn.Linear(dim_in, H)` and of `nn.Linear(H, dim_out)`. -/
structure NetParams where
  w1 : Fin H → Fin dim_in → ℚ
  b1 : Fin H → ℚ
  w2 : Fin dim_out → Fin H → ℚ
  b2 : Fin dim_out → ℚ

/-- The all-zero parameter record (what `model.zero_grad()` writes to the
gradients). -/
def zeroParams : NetParams := ⟨fun _ _ => 0, fun _ => 0, fun _ _ => 0, fun _ => 0⟩

/-- Pointwise sum of two parameter records (autograd accumulates gradients). -/
def addParams (p q : NetParams) : NetParams :=
  ⟨fun j k => p.w1 j k + q.w1 j k, fun j => p.b1 j + q.b1 j,
   fun o j => p.w2 o j + q.w2 o j, fun o => p.b2 o + q.b2 o⟩

/-- First layer `nn.Linear(dim_in, H)`: the affine map `x Wᵀ + b` per batch row. -/
def linear1 (p : NetParams) (x : Fin N → Fin dim_in → ℚ) : Fin N → Fin H → ℚ :=
  fun i j => (∑ k, x i k * p.w1 j k) + p.b1 j

/-- The `nn.ReLU()` layer, applied elementwise. -/
def reluLayer (h : Fin N → Fin H → ℚ) : Fin N → Fin H → ℚ :=
  fun i j => max (h i j) 0

/-- Second layer `nn.Linear(H, dim_out)`. -/
def linear2 (p : NetParams) (h : Fin N → Fin H → ℚ) : Fin N → Fin dim_out → ℚ :=
  fun i o => (∑ j, h i j * p.w2 o j) + p.b2 o

/-- `model(x)`: the `nn.Sequential` container applies its three modules in
sequence, linear, ReLU, linear. -/
def modelForward (p : NetParams) (x : Fin N → Fin dim_in → ℚ) : Fin N → Fin dim_out → ℚ :=
  linear2 p (reluLayer (linear1 p x))

/-- `nn.MSELoss(size_average=sa)` on an `N`-by-`dim_out` prediction and target:
the sum of squared errors over all elements, divided by the element count when
`size_average` is true. -/
def mseLoss (sizeAverage : Bool) (yp t : Fin N → Fin dim_out → ℚ) : ℚ :=
  let total := ∑ i, ∑ o, (yp i o - t i o) ^ 2
  if sizeAverage then total / ((N : ℚ) * (dim_out : ℚ)) else total

/-- `loss_fn`: the loss object the notebook constructs, with
`size_average=False`. -/
def loss_fn : (Fin N → Fin dim_out → ℚ) → (Fin N → Fin dim_out → ℚ) → ℚ :=
  mseLoss false

/-- The gradient of the loss with respect to every learnable parameter: the
analytic derivatives that `loss.backward()` computes for the
linear-ReLU-linear network under the sum-of-squares loss (the ReLU gradient is
taken as 0 where its input is not positive). -/
def lossGrad (p : NetParams) (x : Fin N → Fin dim_in → ℚ)
    (t : Fin N → Fin dim_out → ℚ) : NetParams :=
  let h := linear1 p x
  let hr := reluLayer h
  let yp := linear2 p hr
  let dyp : Fin N → Fin dim_out → ℚ := fun i o => 2 * (yp i o - t i o)
  let dhr : Fin N → Fin H → ℚ := fun i j => ∑ o, dyp i o * p.w2 o j
  let dh : Fin N → Fin H → ℚ := fun i j => if 0 < h i j then dhr i j else 0
  ⟨fun j k => ∑ i, dh i j * x i k,
   fun j => ∑ i, dh i j,
   fun o j => ∑ i, dyp i o * hr i j,
   fun o => ∑ i, dyp i o⟩

/-- State carried across training iterations: the input `x`, the target `y`,
the `learning_rate` variable, the model's structure, its parameters and their
gradient buffers. -/
structure TrainState where
  x : Fin N → Fin dim_in → ℚ
  y : Fin N → Fin dim_out → ℚ
  learning_rate : ℚ
  modelLayers : List Layer
  params : NetParams
  grads : NetParams

/-- The state in which the training loop starts: `x`, `y` and the initial
parameters come from the library's random generator, `learning_rate` is the
notebook's constant, and the model structure is the `nn.Sequential` layer list. -/
def initTrainState (x0 : Fin N → Fin dim_in → ℚ) (y0 : Fin N → Fin dim_out → ℚ)
    (p0 : NetParams) : TrainState :=
  ⟨x0, y0, learning_rate, modelLayers, p0, zeroParams⟩

/-- The loss the loop computes and prints each iteration:
`loss = loss_fn(y_pred, y)` with `y_pred = model(x)`. -/
def iterationLoss (s : TrainState) : ℚ := loss_fn (modelForward s.params s.x) s.y

/-- `model.zero_grad()`: zero every gradient buffer. -/
def modelZeroGrad (s : TrainState) : TrainState := {s with grads := zeroParams}

/-- `loss.backward()`: accumulate the gradient of the loss into the gradient
buffers. -/
def lossBackward (s : TrainState) : TrainState :=
  {s with grads := addParams s.grads (lossGrad s.params s.x s.y)}

/-- The manual update `for param in model.parameters():
`param.data -= learning_rate * param.grad.data`. -/
def paramUpdate (s : TrainState) : TrainState :=
  {s with params :=
    ⟨fun j k => s.params.w1 j k - s.learning_rate * s.grads.w1 j k,
     fun j => s.params.b1 j - s.learning_rate * s.grads.b1 j,
     fun o j => s.params.w2 o j - s.learning_rate * s.grads.w2 o j,
     fun o => s.params.b2 o - s.learning_rate * s.grads.b2 o⟩}

/-- One iteration of the training loop: forward pass and loss are pure
computations (`iterationLoss`), then gradient zeroing, backward pass, and the
manual parameter update, in the notebook's order. -/
def trainStep (s : TrainState) : TrainState := paramUpdate (lossBackward (modelZeroGrad s))

/-- `n` iterations of the training loop. -/
def trainLoop : ℕ → TrainState → TrainState
  | 0, s => s
  | n + 1, s => trainLoop n (trainStep s)

/-- The notebook's full training run: `for t in range(500)`. -/
def runTraining (s : TrainState) : TrainState := trainLoop 500 s

/-- Events produced by one iteration of the training loop, in program order. -/
def iterEvents : List Event :=
  [.forwardPass, .lossComputed, .printed .lossVal, .gradsZeroed, .backwardPass, .paramsUpdated]

/-- The five operations the spec lists for each training iteration. -/
def isClaimedOp : Event → Bool
  | .forwardPass => true
  | .lossComputed => true
  | .gradsZeroed => true
  | .backwardPass => true
  | .paramsUpdated => true
  | _ => false

/-- Whether a simple statement is one of the five gradient-descent operations
of the loop body (everything except the `print`). -/
def simpleIsGradDescentOp : SimpleStmt → Bool
  | .assignForward _ => true
  | .assignLossApply _ => true
  | .zeroGradCall => true
  | .backwardCall => true
  | .forParamsUpdate => true
  | _ => false

lemma loopBody_run (env : ScriptEnv) (s : ScriptState) :
    execSimpleList env s trainLoopBody = .ok {s with events := s.events ++ iterEvents} := by
  simp [trainLoopBody, execSimpleList, execSimple, iterEvents, List.append_assoc]

lemma loop_run (env : ScriptEnv) (n : ℕ) : ∀ s : ScriptState,
    execLoopN env n trainLoopBody s =
      .ok {s with events := s.events ++ (List.replicate n iterEvents).flatten} := by
  induction n with
  | zero => intro s; simp [execLoopN]
  | succ n ih =>
      intro s
      simp [execLoopN, loopBody_run, ih, List.replicate_succ, List.append_assoc]

lemma execStmtList_append (env : ScriptEnv) (l1 l2 : List Stmt) : ∀ s : ScriptState,
    execStmtList env s (l1 ++ l2) =
      match execStmtList env s l1 with
      | .ok s2 => execStmtList env s2 l2
      | .fail e s2 => .fail e s2 := by
  induction l1 with
  | nil => intro s; simp [execStmtList]
  | cons c rest ih =>
      intro s
      cases h : execStmt env s c <;> simp [execStmtList, h, ih]

/-- The event trace of the setup cells on a machine with torch installed and
CUDA available. -/
def setupTraceCuda : List Event :=
  [ .imported .torch,
    .printed .version,
    .printed .cudaAvail,
    .cudaAllocated .a, .printed (.var .a),
    .cudaAllocated .b, .printed (.var .b),
    .added .c, .printed (.var .c),
    .availQueried .use_cuda,
    .aliased .floatT, .aliased .longT, .aliased .byteT, .aliased .tensorT,
    .defaultSetCuda,
    .defaultAllocated .d true, .printed (.var .d),
    .imported .torchNN, .imported .autogradVariable,
    .dimsSet,
    .randnAllocated .x 64 1000 false true,
    .randnAllocated .y 64 10 false true,
    .printed (.var .x),
    .modelBuilt [.linear 1000 100, .relu, .linear 100 10],
    .movedModelToCuda,
    .printed .modelRepr,
    .lossFnBuilt false,
    .lrSet learning_rate ]

lemma setup_run_cuda :
    execStmtList ⟨true, true⟩ initState setupCells = .ok ⟨true, true, setupTraceCuda⟩ := by
  rfl

lemma loopStmt_run (env : ScriptEnv) (s : ScriptState) :
    execStmtList env s [Stmt.forRange 500 trainLoopBody] =
      .ok {s with events := s.events ++ (List.replicate 500 iterEvents).flatten} := by
  simp only [execStmtList, execStmt]
  rw [loop_run]

lemma runScript_cuda :
    runScript ⟨true, true⟩ =
      .ok ⟨true, true, setupTraceCuda ++ (List.replicate 500 iterEvents).flatten⟩ := by
  have h := execStmtList_append ⟨true, true⟩ setupCells [.forRange 500 trainLoopBody] initState
  rw [runScript, scriptCells, h, setup_run_cuda]
  exact loopStmt_run ⟨true, true⟩ ⟨true, true, setupTraceCuda⟩

lemma runScript_noCuda :
    runScript ⟨true, false⟩ =
      .fail (.cudaUnavailable .a)
        ⟨false, false, [.imported .torch, .printed .version, .printed .cudaAvail]⟩ := by
  decide

lemma addParams_zero (g : NetParams) : addParams zeroParams g = g := by
  cases g with
  | mk w1 b1 w2 b2 => simp [addParams, zeroParams]

lemma trainLoop_frame (n : ℕ) : ∀ s : TrainState,
    (trainLoop n s).x = s.x ∧ (trainLoop n s).y = s.y ∧
    (trainLoop n s).learning_rate = s.learning_rate ∧
    (trainLoop n s).modelLayers = s.modelLayers := by
  induction n with
  | zero => intro s; exact ⟨rfl, rfl, rfl, rfl⟩
  | succ n ih => intro s; exact ih (trainStep s)

/-- C1: the training loop runs exactly 500 iterations, and each iteration
performs the forward pass, the loss computation, the gradient zeroing, the
backward pass and the manual parameter update in that order (with the loss
print between the loss computation and the gradient zeroing). -/
theorem C1_loop_500_ordered (env : ScriptEnv) (s : ScriptState) :
    execStmt env s (.forRange 500 trainLoopBody) =
      .ok {s with events := s.events ++ (List.replicate 500 iterEvents).flatten} ∧
    iterEvents.filter isClaimedOp =
      [.forwardPass, .lossComputed, .gradsZeroed, .backwardPass, .paramsUpdated] ∧
    (List.replicate 500 iterEvents).length = 500 ∧
    Stmt.forRange 500 trainLoopBody ∈ scriptCells := by
  refine ⟨?_, by decide, by rw [List.length_replicate], by decide⟩
  show execLoopN env 500 trainLoopBody s = _
  exact loop_run env 500 s

/-- C1 witness: the loop-trace theorem instantiated at the initial state. -/
theorem C1_loop_500_ordered_witness :
    execStmt ⟨true, true⟩ initState (.forRange 500 trainLoopBody) =
      .ok {initState with events :=
        initState.events ++ (List.replicate 500 iterEvents).flatten} :=
  (C1_loop_500_ordered ⟨true, true⟩ initState).1

/-- C2: the model is built by a single `nn.Sequential` factory call whose
arguments are exactly the three modules `nn.Linear(1000, 100)`, `nn.ReLU()`,
`nn.Linear(100, 10)` in that order, and the container applies them in
sequence. -/
theorem C2_sequential_model :
    modelLayers = [Layer.linear 1000 100, Layer.relu, Layer.linear 100 10] ∧
    modelLayers.length = 3 ∧
    Stmt.simple (.assignSequentialModel .model modelLayers) ∈ scriptCells ∧
    scriptSeqCount = 1 ∧
    ∀ (p : NetParams) (x0 : Fin N → Fin dim_in → ℚ),
      modelForward p x0 = linear2 p (reluLayer (linear1 p x0)) :=
  ⟨by decide, by decide, by decide, by decide, fun p x0 => rfl⟩

/-- C3: each training step updates every learnable parameter by subtracting
`learning_rate` times the gradient that the backward pass accumulated into its
zeroed gradient buffer, the learning rate is `1e-4` and is never changed, and
no other update rule is applied. -/
theorem C3_manual_gradient_descent (s : TrainState) :
    ((trainStep s).params.w1 =
      fun j k => s.params.w1 j k - s.learning_rate * (lossGrad s.params s.x s.y).w1 j k) ∧
    ((trainStep s).params.b1 =
      fun j => s.params.b1 j - s.learning_rate * (lossGrad s.params s.x s.y).b1 j) ∧
    ((trainStep s).params.w2 =
      fun o j => s.params.w2 o j - s.learning_rate * (lossGrad s.params s.x s.y).w2 o j) ∧
    ((trainStep s).params.b2 =
      fun o => s.params.b2 o - s.learning_rate * (lossGrad s.params s.x s.y).b2 o) ∧
    (trainStep s).learning_rate = s.learning_rate ∧
    learning_rate = 1/10000 ∧
    ∀ (x0 : Fin N → Fin dim_in → ℚ) (y0 : Fin N → Fin dim_out → ℚ) (p0 : NetParams),
      (initTrainState x0 y0 p0).learning_rate = learning_rate := by
  refine ⟨?_, ?_, ?_, ?_, rfl, rfl, fun x0 y0 p0 => rfl⟩ <;>
    simp [trainStep, paramUpdate, lossBackward, modelZeroGrad, addParams_zero]

/-- C4 counterexample: on a run where CUDA is unavailable, the
default-tensor-type step never executes (the script fails before reaching it),
so the step does not occur on every run of the script. -/
theorem C4_counterexample :
    Event.defaultSetCuda ∉ (runScript ⟨true, false⟩).trace := by decide

/-- C4 (amended): the `torch.set_default_tensor_type` step is guarded by
`use_cuda`; on a run with CUDA available it executes, and the tensors created
after it (`d`, `x`, `y`) are allocated on the CUDA backend. -/
theorem C4_guarded_default_backend :
    runScript ⟨true, true⟩ =
      .ok ⟨true, true, setupTraceCuda ++ (List.replicate 500 iterEvents).flatten⟩ ∧
    Event.defaultSetCuda ∈ setupTraceCuda ∧
    Event.defaultAllocated .d true ∈ setupTraceCuda ∧
    Event.randnAllocated .x 64 1000 false true ∈ setupTraceCuda ∧
    Event.randnAllocated .y 64 10 false true ∈ setupTraceCuda ∧
    Stmt.ifCuda [.setDefaultTensorTypeCuda] ∈ scriptCells :=
  ⟨runScript_cuda, by decide, by decide, by decide, by decide, by decide⟩

/-- C5: the script contains no try/except statement, and a failure — a missing
library at `import torch`, or an absent accelerator at the first CUDA
allocation — becomes the failing outcome of the whole script, with no recovery. -/
theorem C5_no_error_handling :
    containsTry scriptCells = false ∧
    runScript ⟨false, false⟩ = .fail (.moduleNotFound .torch) initState ∧
    runScript ⟨true, false⟩ =
      .fail (.cudaUnavailable .a)
        ⟨false, false, [.imported .torch, .printed .version, .printed .cudaAvail]⟩ :=
  ⟨by decide, by decide, runScript_noCuda⟩

/-- C7 counterexample: the training-loop body does not consist of five
statements. -/
theorem C7_counterexample : trainLoopBody.length ≠ 5 := by decide

/-- C7 (amended): the training-loop body is six statements: the five
gradient-descent steps (forward pass, loss computation, gradient zeroing,
backward pass, manual parameter update) in order, plus a print of the loss. -/
theorem C7_six_statements :
    trainLoopBody.length = 6 ∧
    trainLoopBody.filter simpleIsGradDescentOp =
      [.assignForward .y_pred, .assignLossApply .loss, .zeroGradCall, .backwardCall,
        .forParamsUpdate] ∧
    (trainLoopBody.filter simpleIsGradDescentOp).length = 5 ∧
    SimpleStmt.printOut .lossVal ∈ trainLoopBody := by decide

/-- C8: the loss object is constructed with `size_average=False`, so the loss
computed (and printed) each iteration is the sum of squared errors over all
64-by-10 output elements; on a concrete input it differs from the mean. -/
theorem C8_loss_is_sum_of_squares :
    (∀ yp t : Fin N → Fin dim_out → ℚ, loss_fn yp t = ∑ i, ∑ o, (yp i o - t i o) ^ 2) ∧
    N = 64 ∧ dim_out = 10 ∧
    Stmt.simple (.assignMSELoss .loss_fn false) ∈ scriptCells ∧
    loss_fn (fun _ _ => 1) (fun _ _ => 0) = 640 ∧
    mseLoss true (fun _ _ => 1) (fun _ _ => 0) = 1 ∧
    loss_fn (fun _ _ => 1) (fun _ _ => 0) ≠ mseLoss true (fun _ _ => 1) (fun _ _ => 0) ∧
    ∀ s : TrainState, iterationLoss s = loss_fn (modelForward s.params s.x) s.y := by
  have hsum : (∑ i : Fin N, ∑ o : Fin dim_out, ((1 : ℚ) - 0) ^ 2) = 640 := by
    simp [Finset.sum_const, Finset.card_univ]
    norm_num [N, dim_out]
  have hfalse : loss_fn (fun _ _ => 1) (fun _ _ => 0) = 640 := hsum
  have htrue : mseLoss true (fun _ _ => 1) (fun _ _ => 0) = 1 := by
    show (∑ i : Fin N, ∑ o : Fin dim_out, ((1 : ℚ) - 0) ^ 2) / ((N : ℚ) * (dim_out : ℚ)) = 1
    rw [hsum]
    norm_num [N, dim_out]
  refine ⟨fun yp t => rfl, rfl, rfl, by decide, hfalse, htrue, ?_, fun s => rfl⟩
  rw [hfalse, htrue]
  norm_num

/-- C9: the first CUDA tensor allocations are not guarded by the availability
query: on a machine without CUDA the script fails right at the allocation of
`a`, and its run never reaches the default-tensor-type step or the model
construction. -/
theorem C9_unguarded_cuda_alloc :
    runScript ⟨true, false⟩ =
      .fail (.cudaUnavailable .a)
        ⟨false, false, [.imported .torch, .printed .version, .printed .cudaAvail]⟩ ∧
    Event.defaultSetCuda ∉ (runScript ⟨true, false⟩).trace ∧
    (∀ layers : List Layer, Event.modelBuilt layers ∉ (runScript ⟨true, false⟩).trace) ∧
    Event.cudaAllocated .a ∈ (runScript ⟨true, true⟩).trace := by
  refine ⟨runScript_noCuda, by decide, ?_, ?_⟩
  · intro layers
    rw [runScript_noCuda]
    simp [ExecResult.trace]
  · rw [runScript_cuda]
    show Event.cudaAllocated .a ∈ setupTraceCuda ++ (List.replicate 500 iterEvents).flatten
    exact List.mem_append_left _ (by decide)

/-- C10: over the full 500-iteration training run, the input `x`, the target
`y`, the learning rate and the model structure are all unchanged — only the
parameters and their gradient buffers are mutated — and `y` is created with
`requires_grad=False`. -/
theorem C10_loop_frame (s : TrainState) :
    (runTraining s).x = s.x ∧ (runTraining s).y = s.y ∧
    (runTraining s).learning_rate = s.learning_rate ∧
    (runTraining s).modelLayers = s.modelLayers ∧
    Stmt.simple (.assignRandnDefault .y N dim_out false) ∈ scriptCells :=
  ⟨(trainLoop_frame 500 s).1, (trainLoop_frame 500 s).2.1, (trainLoop_frame 500 s).2.2.1,
    (trainLoop_frame 500 s).2.2.2, by decide⟩

end IntroTorch
